import Mathlib

/-!
Verification of the eddata-collector ingestion service.

This file shallowly embeds the parts of the source relevant to the claims:
the sector hasher (`lib/system-sectors.js`), the SQL helper semantics
(`lib/sql-helper.js`, `INSERT OR REPLACE`), the event handlers
(`lib/event-handlers/...`), the ingest loop's dedup cache and dead-letter
buffer (`index.js`), the `/health` route, the stations schema
(`lib/db/stations-db.js`) and the commodity-ticker `hotTrades` query
(`scripts/stats/commodity-stats.js`).

Machine floats are modelled as rationals, crypto digests as abstract
function parameters (claims depend only on their application or their
injectivity, never on digest internals), and SQLite tables as lists of
typed rows keyed by their declared primary keys.
-/

/-- Ambient functions the handlers close over.  `hash` stands for
`createHash('shake256', { outputLength: 8 }).update(s).digest('hex')`,
`renderNumber` for JavaScript number-to-string conversion inside template
literals, `now` for `new Date().toISOString()` at the time of the call, and
`toISO` for `t => new Date(t).toISOString()`. -/
structure Env where
  hash : String → String
  renderNumber : ℚ → String
  now : String
  toISO : String → String

/-- JavaScript values as they occur at the `getSystemSector` call sites:
every handler passes a system name (a string) as `x` and omits `y` and `z`. -/
inductive JSVal where
  | num (q : ℚ)
  | str (s : String)
  | undef
deriving DecidableEq, Repr

/-- Numeric value of a digit string (helper for JavaScript `ToNumber`). -/
def digitsVal (cs : List Char) : ℕ :=
  cs.foldl (fun n c => n * 10 + (c.toNat - 48)) 0

/-- Unsigned decimal literal parser (helper for JavaScript `ToNumber`):
digits, optionally followed by a decimal point and more digits.  `none`
encodes NaN. -/
def parseUnsignedDecimal (cs : List Char) : Option ℚ :=
  let p := cs.span (·.isDigit)
  match p.2 with
  | [] => if p.1.isEmpty then none else some ((digitsVal p.1 : ℤ) : ℚ)
  | '.' :: fp =>
      if fp.all (·.isDigit) && !(p.1.isEmpty && fp.isEmpty) then
        some ((digitsVal p.1 : ℚ) + (digitsVal fp : ℚ) / (10 : ℚ) ^ fp.length)
      else none
  | _ => none

/-- Whitespace trimming performed by JavaScript `ToNumber` before parsing. -/
def jsTrim (cs : List Char) : List Char :=
  ((cs.dropWhile Char.isWhitespace).reverse.dropWhile Char.isWhitespace).reverse

/-- JavaScript `ToNumber` on strings, restricted to the decimal-literal
fragment (the only inputs reaching it here are system names, which are not
numeric).  `none` encodes NaN; the empty (trimmed) string converts to 0. -/
def jsStringToNumber (s : String) : Option ℚ :=
  match jsTrim s.toList with
  | [] => some 0
  | '-' :: rest => (parseUnsignedDecimal rest).map Neg.neg
  | '+' :: rest => parseUnsignedDecimal rest
  | cs => parseUnsignedDecimal cs

/-- JavaScript `ToNumber` as applied by arithmetic on a `JSVal`;
`undefined` converts to NaN (`none`). -/
def jsToNumber : JSVal → Option ℚ
  | .num q => some q
  | .str s => jsStringToNumber s
  | .undef => none

/-- lib/consts.js: `SYSTEM_GRID_SIZE = 100` (light years). -/
def SYSTEM_GRID_SIZE : ℚ := 100

/-- One component of the digest input of `getSystemSector`:
`Math.floor(v / SYSTEM_GRID_SIZE)` rendered in a template literal.
NaN propagates through division and `Math.floor` and renders as `"NaN"`. -/
def gridComponent (v : JSVal) : String :=
  match jsToNumber v with
  | none => "NaN"
  | some q => toString (⌊q / SYSTEM_GRID_SIZE⌋ : ℤ)

/-- lib/system-sectors.js `getSystemSector(x, y, z)`: the shake256/hex digest
of the template string of the three grid coordinates. -/
def getSystemSector (env : Env) (x y z : JSVal) : String :=
  env.hash (gridComponent x ++ ", " ++ gridComponent y ++ ", " ++ gridComponent z)

/-- lib/system-sectors.js `_getAllNumbersBetween(min, max)`:
`Array.from({ length: max - min + 1 }, (_, i) => min + i)` (empty when the
length is not positive). -/
def getAllNumbersBetween (lo hi : ℤ) : List ℤ :=
  (List.range (hi - lo + 1).toNat).map (fun i : ℕ => lo + (i : ℤ))

/-- lib/system-sectors.js `getNearbySystemSectors(x, y, z, distance)`:
enumerate the inclusive bounding box `[⌊(c-d)/G⌋ .. ⌈(c+d)/G⌉]` per axis and
hash every triple with the same template as `getSystemSector`. -/
def getNearbySystemSectors (env : Env) (x y z distance : ℚ) : List String :=
  let xGridValues := getAllNumbersBetween ⌊(x - distance) / SYSTEM_GRID_SIZE⌋ ⌈(x + distance) / SYSTEM_GRID_SIZE⌉
  let yGridValues := getAllNumbersBetween ⌊(y - distance) / SYSTEM_GRID_SIZE⌋ ⌈(y + distance) / SYSTEM_GRID_SIZE⌉
  let zGridValues := getAllNumbersBetween ⌊(z - distance) / SYSTEM_GRID_SIZE⌋ ⌈(z + distance) / SYSTEM_GRID_SIZE⌉
  xGridValues.flatMap fun xVal =>
    yGridValues.flatMap fun yVal =>
      zGridValues.map fun zVal =>
        env.hash (toString xVal ++ ", " ++ toString yVal ++ ", " ++ toString zVal)

/-! ### Stores

Each SQLite table is modelled as a list of typed rows; `INSERT OR REPLACE`
deletes any row conflicting on the primary key and inserts the new row, with
columns absent from the statement left NULL (`none`). -/

/-- Row of the `systems` table (lib/db/systems-db.js): primary key
`systemAddress`; coordinates are nullable because the journal Location
handler stores `StarPos?.[i] ?? null`. -/
structure SystemRow where
  systemAddress : ℤ
  systemName : String
  systemX : Option ℚ
  systemY : Option ℚ
  systemZ : Option ℚ
  systemSector : String
  updatedAt : String
deriving DecidableEq, Repr

/-- `INSERT OR REPLACE INTO systems (...)` via lib/sql-helper.js: the row
with the same `systemAddress`, if any, is removed and the new row inserted.
Every systems write in the handlers supplies all columns. -/
def insertOrReplaceIntoSystems (db : List SystemRow) (row : SystemRow) : List SystemRow :=
  db.filter (fun r => decide (r.systemAddress ≠ row.systemAddress)) ++ [row]

/-- `SELECT * FROM systems WHERE systemAddress = @systemAddress` -/
def selectSystemByAddress (db : List SystemRow) (systemAddress : ℤ) : Option SystemRow :=
  db.find? (fun r => decide (r.systemAddress = systemAddress))

/-- Row of the `stations` table (lib/db/stations-db.js `ensureTables`): all
columns of the CREATE TABLE statement; primary key `marketId`.  Every column
other than the key is nullable (the CREATE TABLE declares no defaults), and
`Option` fields default to `none` so that a partial `INSERT OR REPLACE`
leaves the unsupplied columns NULL. -/
structure StationRow where
  marketId : ℤ
  stationName : Option String := none
  distanceToArrival : Option ℚ := none
  stationType : Option String := none
  allegiance : Option String := none
  government : Option String := none
  controllingFaction : Option String := none
  primaryEconomy : Option String := none
  secondaryEconomy : Option String := none
  shipyard : Option ℤ := none
  outfitting : Option ℤ := none
  blackMarket : Option ℤ := none
  contacts : Option ℤ := none
  crewLounge : Option ℤ := none
  interstellarFactors : Option ℤ := none
  materialTrader : Option ℤ := none
  missions : Option ℤ := none
  refuel : Option ℤ := none
  repair : Option ℤ := none
  restock : Option ℤ := none
  searchAndRescue : Option ℤ := none
  technologyBroker : Option ℤ := none
  tuning : Option ℤ := none
  universalCartographics : Option ℤ := none
  engineer : Option ℤ := none
  frontlineSolutions : Option ℤ := none
  apexInterstellar : Option ℤ := none
  vistaGenomics : Option ℤ := none
  pioneerSupplies : Option ℤ := none
  bartender : Option ℤ := none
  systemAddress : Option ℤ := none
  systemName : Option String := none
  systemX : Option ℚ := none
  systemY : Option ℚ := none
  systemZ : Option ℚ := none
  bodyId : Option ℤ := none
  bodyName : Option String := none
  latitude : Option ℚ := none
  longitude : Option ℚ := none
  maxLandingPadSize : Option ℤ := none
  updatedAt : Option String := none
deriving DecidableEq, Repr

/-- `INSERT OR REPLACE INTO stations (...)`: replace on primary key
`marketId`; columns not named in the statement become NULL, which the row
argument carries as `none` fields. -/
def insertOrReplaceIntoStations (db : List StationRow) (row : StationRow) : List StationRow :=
  db.filter (fun r => decide (r.marketId ≠ row.marketId)) ++ [row]

/-- `SELECT * FROM stations WHERE marketId = @marketId` -/
def selectStationByMarketId (db : List StationRow) (marketId : ℤ) : Option StationRow :=
  db.find? (fun r => decide (r.marketId = marketId))

/-- Row of the `locations` table (lib/db/locations-db.js): primary key
`locationId`, the digest of the compound key. -/
structure LocationRow where
  locationId : String
  locationName : String
  systemAddress : ℤ
  systemName : String
  systemX : ℚ
  systemY : ℚ
  systemZ : ℚ
  bodyId : Option ℤ
  bodyName : Option String
  latitude : Option ℚ
  longitude : Option ℚ
  updatedAt : String
deriving DecidableEq, Repr

/-- `INSERT OR REPLACE INTO locations (...)`: replace on primary key
`locationId`. -/
def insertOrReplaceIntoLocations (db : List LocationRow) (row : LocationRow) : List LocationRow :=
  db.filter (fun r => decide (r.locationId ≠ row.locationId)) ++ [row]

/-- Combined database state touched by the handlers under proof. -/
structure DbState where
  systems : List SystemRow
  stations : List StationRow
  locations : List LocationRow
deriving DecidableEq, Repr

/-! ### Event payloads

Only the fields each handler reads are modelled.  `StarPos` is a required
triple in the EDDN schemas for nav-route hops, discovery scans and
approach-settlement events; the handlers' `?.[i] ?? 0` fallbacks for a
missing array are therefore not modelled.  The nav-route and
approach-settlement guards read a `SystemName` field that those schemas do
not define, so it is carried as an `Option`. -/

/-- A 3D position as carried in `StarPos` arrays. -/
structure Vec3 where
  x : ℚ
  y : ℚ
  z : ℚ
deriving DecidableEq, Repr

/-- Fields of an fssdiscoveryscan/1 message read by the handler; this schema
does define `SystemName`. -/
structure DiscoveryScanMessage where
  SystemAddress : ℤ
  SystemName : String
  StarPos : Vec3
deriving DecidableEq, Repr

/-- Fields of one navroute/1 hop read by the handler.  `SystemName` is not
part of the schema (hops carry `StarSystem`), yet the guard reads it. -/
structure NavRouteHop where
  StarSystem : String
  SystemAddress : ℤ
  StarPos : Vec3
  SystemName : Option String
deriving DecidableEq, Repr

/-- Fields of a journal/1 `Location` event read by the handler. -/
structure LocationMessage where
  SystemAddress : Option ℤ
  StarSystem : String
  StarPos : Option Vec3
  timestamp : String
deriving DecidableEq, Repr

/-- Fields of an approachsettlement/1 message read by the handler.
`SystemName` is not part of the schema, yet the guard reads it. -/
structure ApproachSettlementMessage where
  Name : String
  MarketID : Option ℤ
  SystemAddress : ℤ
  StarSystem : String
  SystemName : Option String
  StarPos : Vec3
  BodyID : Option ℤ
  BodyName : Option String
  Latitude : Option ℚ
  Longitude : Option ℚ
deriving DecidableEq, Repr

/-! ### Event handlers -/

/-- Rendering of a possibly-undefined value inside a JavaScript template
literal: `undefined` renders as `"undefined"`. -/
def jsShowInt : Option ℤ → String
  | none => "undefined"
  | some i => toString i

/-- Rendering of a possibly-undefined number inside a JavaScript template
literal, using the environment's number renderer. -/
def jsShowNum (env : Env) : Option ℚ → String
  | none => "undefined"
  | some q => env.renderNumber q

/-- lib/event-handlers/journal-event/location-event.js: upsert the system
row unconditionally (there is no zero-coordinate guard in this handler).
`if (!message?.SystemAddress)` bails out on a missing — or `0`, which is
falsy — address.  The `getSystemSector` call passes the system name as its
only argument. -/
def locationEvent (env : Env) (message : LocationMessage) (systemsDb : List SystemRow) : List SystemRow :=
  match message.SystemAddress with
  | none => systemsDb
  | some addr =>
    if addr = 0 then systemsDb
    else
      insertOrReplaceIntoSystems systemsDb {
        systemAddress := addr
        systemName := message.StarSystem
        systemX := message.StarPos.map (·.x)
        systemY := message.StarPos.map (·.y)
        systemZ := message.StarPos.map (·.z)
        systemSector := getSystemSector env (.str message.StarSystem) .undef .undef
        updatedAt := env.toISO message.timestamp
      }

/-- lib/event-handlers/discovery-scan-event.js: skip when the position is
`(0,0,0)` and `SystemName !== 'Sol'`; otherwise insert-if-absent keyed by
`systemAddress`.  The `getSystemSector` call passes the system name as its
only argument. -/
def discoveryScanEvent (env : Env) (m : DiscoveryScanMessage) (systemsDb : List SystemRow) : List SystemRow :=
  if m.StarPos.x = 0 ∧ m.StarPos.y = 0 ∧ m.StarPos.z = 0 ∧ m.SystemName ≠ "Sol" then
    systemsDb
  else if (selectSystemByAddress systemsDb m.SystemAddress).isSome then
    systemsDb
  else
    insertOrReplaceIntoSystems systemsDb {
      systemAddress := m.SystemAddress
      systemName := m.SystemName
      systemX := some m.StarPos.x
      systemY := some m.StarPos.y
      systemZ := some m.StarPos.z
      systemSector := getSystemSector env (.str m.SystemName) .undef .undef
      updatedAt := env.now
    }

/-- One iteration of the `route.forEach` loop in
lib/event-handlers/navroute-event.js.  The guard compares
`system.SystemName` — a field navroute hops do not carry — against `'Sol'`
(`undefined !== 'Sol'` is true), while the inserted row's name comes from
`system.StarSystem`.  The `getSystemSector` call passes the system name as
its only argument. -/
def navRouteHopStep (env : Env) (systemsDb : List SystemRow) (system : NavRouteHop) : List SystemRow :=
  if system.StarPos.x = 0 ∧ system.StarPos.y = 0 ∧ system.StarPos.z = 0 ∧ system.SystemName ≠ some "Sol" then
    systemsDb
  else if (selectSystemByAddress systemsDb system.SystemAddress).isSome then
    systemsDb
  else
    insertOrReplaceIntoSystems systemsDb {
      systemAddress := system.SystemAddress
      systemName := system.StarSystem
      systemX := some system.StarPos.x
      systemY := some system.StarPos.y
      systemZ := some system.StarPos.z
      systemSector := getSystemSector env (.str system.StarSystem) .undef .undef
      updatedAt := env.now
    }

/-- lib/event-handlers/navroute-event.js: iterate `navRouteHopStep` over the
route. -/
def navRouteEvent (env : Env) (route : List NavRouteHop) (systemsDb : List SystemRow) : List SystemRow :=
  route.foldl (navRouteHopStep env) systemsDb

/-- The station `newItem` built by the `MarketID` branch of
lib/event-handlers/approach-settlement-event.js: only name, body placement,
surface coordinates, system denormalization fields and `updatedAt` are
supplied; all other columns of the `INSERT OR REPLACE` target are absent
from the statement and therefore become NULL. -/
def approachSettlementStationItem (env : Env) (m : ApproachSettlementMessage) (mid : ℤ) : StationRow :=
  { marketId := mid
    stationName := some m.Name
    systemAddress := some m.SystemAddress
    systemName := some m.StarSystem
    systemX := some m.StarPos.x
    systemY := some m.StarPos.y
    systemZ := some m.StarPos.z
    bodyId := m.BodyID
    bodyName := m.BodyName
    latitude := m.Latitude
    longitude := m.Longitude
    updatedAt := some env.now }

/-- The locations branch of approach-settlement: skip names with the
excluded construction-site prefix, derive `locationId` as the digest of the
`${systemAddress}/${locationName}/${bodyId}/${latitude}/${longitude}`
compound key, and upsert. -/
def approachSettlementLocations (env : Env) (m : ApproachSettlementMessage)
    (locationsDb : List LocationRow) : List LocationRow :=
  if m.Name.startsWith "Planetary Construction Site :" then locationsDb
  else
    insertOrReplaceIntoLocations locationsDb {
      locationId := env.hash (toString m.SystemAddress ++ "/" ++ m.Name ++ "/"
        ++ jsShowInt m.BodyID ++ "/" ++ jsShowNum env m.Latitude ++ "/" ++ jsShowNum env m.Longitude)
      locationName := m.Name
      systemAddress := m.SystemAddress
      systemName := m.StarSystem
      systemX := m.StarPos.x
      systemY := m.StarPos.y
      systemZ := m.StarPos.z
      bodyId := m.BodyID
      bodyName := m.BodyName
      latitude := m.Latitude
      longitude := m.Longitude
      updatedAt := env.now
    }

/-- lib/event-handlers/approach-settlement-event.js: guard on `(0,0,0)`
positions (reading the schema-less `SystemName` field), insert the system
if absent, then either upsert a station row (`MarketID` truthy — the
station-exists check is vestigial, both branches run the same
`INSERT OR REPLACE`) or upsert a point-of-interest location. -/
def approachSettlementEvent (env : Env) (m : ApproachSettlementMessage) (st : DbState) : DbState :=
  if m.StarPos.x = 0 ∧ m.StarPos.y = 0 ∧ m.StarPos.z = 0 ∧ m.SystemName ≠ some "Sol" then
    st
  else
    let systems :=
      if (selectSystemByAddress st.systems m.SystemAddress).isSome then st.systems
      else
        insertOrReplaceIntoSystems st.systems {
          systemAddress := m.SystemAddress
          systemName := m.StarSystem
          systemX := some m.StarPos.x
          systemY := some m.StarPos.y
          systemZ := some m.StarPos.z
          systemSector := getSystemSector env (.str m.StarSystem) .undef .undef
          updatedAt := env.now
        }
    match m.MarketID with
    | some mid =>
      if mid ≠ 0 then
        { st with systems
                  stations := insertOrReplaceIntoStations st.stations (approachSettlementStationItem env m mid) }
      else
        { st with systems, locations := approachSettlementLocations env m st.locations }
    | none =>
      { st with systems, locations := approachSettlementLocations env m st.locations }

/-- A dispatched event, as routed by the `$schemaRef` switch in index.js
(journal events further dispatch on the inner event kind; `Location` is the
sub-handler present in the source tree). -/
inductive Event where
  | discoveryScan (m : DiscoveryScanMessage)
  | navRoute (route : List NavRouteHop)
  | approachSettlement (m : ApproachSettlementMessage)
  | journalLocation (m : LocationMessage)
deriving Repr

/-- Apply one dispatched event to the database state. -/
def applyEvent (env : Env) (st : DbState) : Event → DbState
  | .discoveryScan m => { st with systems := discoveryScanEvent env m st.systems }
  | .navRoute route => { st with systems := navRouteEvent env route st.systems }
  | .approachSettlement m => approachSettlementEvent env m st
  | .journalLocation m => { st with systems := locationEvent env m st.systems }

/-- Apply a sequence of dispatched events in arrival order. -/
def applyEvents (env : Env) (events : List Event) (st : DbState) : DbState :=
  events.foldl (applyEvent env) st

/-- The empty database state. -/
def emptyDb : DbState := ⟨[], [], []⟩

/-! ### Ingest loop: dedup cache and dead-letter buffer (index.js) -/

/-- index.js: `MESSAGE_CACHE_MAX_SIZE = 50000`. -/
def MESSAGE_CACHE_MAX_SIZE : ℕ := 50000

/-- index.js: `MESSAGE_CACHE_CLEANUP_SIZE = 25000`. -/
def MESSAGE_CACHE_CLEANUP_SIZE : ℕ := 25000

/-- The dedup bookkeeping of `processMessageData`: a JavaScript `Set`
iterates in insertion order, so it is modelled as a duplicate-free list with
new keys appended at the tail.  If the key is already present the message is
dropped (cache unchanged); otherwise the key is added and, when the size
exceeds `MESSAGE_CACHE_MAX_SIZE`, the first `MESSAGE_CACHE_CLEANUP_SIZE`
iterator values — the oldest entries — are deleted. -/
def addToMessageCache (messageCache : List String) (cacheKey : String) : List String :=
  if cacheKey ∈ messageCache then messageCache
  else
    let c := messageCache ++ [cacheKey]
    if c.length > MESSAGE_CACHE_MAX_SIZE then c.drop MESSAGE_CACHE_CLEANUP_SIZE else c

/-- State of the socket consumer loop in index.js: the dead-letter
`messageBuffer` and the frames handed to `processMessageData`, in order. -/
structure IngestState where
  buffer : List String
  processed : List String
deriving DecidableEq, Repr

/-- One iteration of `for await (const [message] of socket)`: while
`databaseWriteLocked` the raw frame is pushed onto `messageBuffer` and not
dispatched; otherwise any buffered frames are processed first (in buffer
order), the buffer is cleared, and then the current frame is processed.
The `processingBuffer` flag only guards against re-entry, which cannot occur
in the sequential loop. -/
def consumeStep (databaseWriteLocked : Bool) (st : IngestState) (message : String) : IngestState :=
  if databaseWriteLocked then
    { st with buffer := st.buffer ++ [message] }
  else
    { buffer := [], processed := st.processed ++ st.buffer ++ [message] }

/-- The consumer loop over a sequence of frames, each paired with the value
of the write-lock flag observed when it arrived. -/
def consumeRun (events : List (Bool × String)) (st : IngestState) : IngestState :=
  events.foldl (fun s e => consumeStep e.1 s e.2) st

/-! ### Health endpoint (index.js router.get of /health) -/

/-- The optional maintenance sub-object the specification describes for the
health response. -/
structure MaintenanceStatus where
  running : Bool
  duration : ℤ
deriving DecidableEq, Repr

/-- Shape of the `/health` JSON body. -/
structure HealthResponse where
  status : String
  timestamp : String
  version : String
  uptime : ℤ
  maintenance : Option MaintenanceStatus
deriving DecidableEq, Repr

/-- index.js `router.get('/health', ...)`: the body is exactly
`{status, timestamp, version, uptime}`.  The handler does not read
`databaseWriteLocked` (the parameter records the flag in scope at request
time) and never attaches a `maintenance` sub-object. -/
def healthHandler (_databaseWriteLocked : Bool) (timestamp version : String) (uptime : ℤ) : HealthResponse :=
  { status := "healthy"
    timestamp := timestamp
    version := version
    uptime := uptime
    maintenance := none }

/-! ### Stations schema column sets (lib/db/stations-db.js) -/

/-- Column names of `CREATE TABLE IF NOT EXISTS stations (...)` in
`ensureTables`, in declaration order. -/
def stationsTableColumns : List String :=
  ["marketId", "stationName", "distanceToArrival", "stationType", "allegiance",
   "government", "controllingFaction", "primaryEconomy", "secondaryEconomy",
   "shipyard", "outfitting", "blackMarket", "contacts", "crewLounge",
   "interstellarFactors", "materialTrader", "missions", "refuel", "repair",
   "restock", "searchAndRescue", "technologyBroker", "tuning",
   "universalCartographics", "engineer", "frontlineSolutions",
   "apexInterstellar", "vistaGenomics", "pioneerSupplies", "bartender",
   "systemAddress", "systemName", "systemX", "systemY", "systemZ", "bodyId",
   "bodyName", "latitude", "longitude", "maxLandingPadSize", "updatedAt"]

/-- The `expectedColumns` names listed in `migrateSchema` (the additive
migration target), in order. -/
def migrateSchemaExpectedColumns : List String :=
  ["marketId", "stationName", "distanceToArrival", "stationType", "allegiance",
   "government", "controllingFaction", "primaryEconomy", "secondaryEconomy",
   "shipyard", "outfitting", "blackMarket", "contacts", "crewLounge",
   "interstellarFactors", "materialTrader", "missions", "refuel", "repair",
   "restock", "searchAndRescue", "technologyBroker", "tuning",
   "universalCartographics", "engineer", "frontlineSolutions",
   "apexInterstellar", "vistaGenomics", "pioneerSupplies", "bartender",
   "systemAddress", "systemName", "systemX", "systemY", "systemZ", "bodyId",
   "bodyName", "latitude", "longitude", "maxLandingPadSize", "updatedAt"]

/-! ### Commodity ticker `hotTrades` query (scripts/stats/commodity-stats.js) -/

/-- Row of the `commodities` table (lib/db/trade-db.js): composite primary
key `(commodityName, marketId)`. -/
structure TradeRow where
  commodityName : String
  marketId : ℤ
  buyPrice : ℤ := 0
  demand : ℤ := 0
  demandBracket : ℤ := 0
  meanPrice : ℤ := 0
  sellPrice : ℤ := 0
  stock : ℤ := 0
  stockBracket : ℤ := 0
  updatedAt : String := ""
  updatedAtDay : String := ""
deriving DecidableEq, Repr

/-- `sell.sellPrice - buy.buyPrice`, the `profit` column of the query. -/
def profit (p : TradeRow × TradeRow) : ℤ := p.2.sellPrice - p.1.buyPrice

/-- The WHERE clause of the hotTrades self-join (the join condition
`buy.commodityName = sell.commodityName` included).  Note the strict
comparisons `buy.stock > 100` and `sell.demand > 100`. -/
def hotTradesWhere (buy sell : TradeRow) : Prop :=
  buy.commodityName = sell.commodityName ∧
  buy.stock > 100 ∧ buy.buyPrice > 0 ∧ buy.buyPrice < 999999 ∧
  sell.demand > 100 ∧ sell.sellPrice > 0 ∧ sell.sellPrice < 999999 ∧
  sell.sellPrice > buy.buyPrice ∧ buy.marketId ≠ sell.marketId

instance (buy sell : TradeRow) : Decidable (hotTradesWhere buy sell) := by
  unfold hotTradesWhere; infer_instance

/-- The `FROM commodities buy JOIN commodities sell ... WHERE ...` result
set, as (buy, sell) pairs. -/
def hotTradesJoin (rows : List TradeRow) : List (TradeRow × TradeRow) :=
  rows.flatMap fun buy =>
    (rows.filter fun sell => decide (hotTradesWhere buy sell)).map fun sell => (buy, sell)

/-- `ORDER BY profit DESC LIMIT 20`.  SQLite fixes no order among equal
profits; an insertion sort by descending profit realizes one admissible
order. -/
def hotTrades (rows : List TradeRow) : List (TradeRow × TradeRow) :=
  ((hotTradesJoin rows).insertionSort fun p q => profit q ≤ profit p).take 20

/-! ### Concrete fixtures for closed theorems -/

/-- A concrete environment for closed instances: the digest is the identity
(injective, as the claims require of shake256 on these short inputs). -/
def testEnv : Env :=
  { hash := fun s => s
    renderNumber := fun q => toString q
    now := "2026-01-01T00:00:00.000Z"
    toISO := fun t => t }

/-- A pre-existing station row with economies and services populated. -/
def stationRowBefore : StationRow :=
  { marketId := 123
    stationName := some "Old Name"
    stationType := some "CraterPort"
    primaryEconomy := some "Agriculture"
    secondaryEconomy := some "Industrial"
    shipyard := some 1
    refuel := some 1
    maxLandingPadSize := some 3 }

/-- An approach-settlement event carrying only placement data for the
station with `MarketID = 123`. -/
def approachMsg : ApproachSettlementMessage :=
  { Name := "New Settlement"
    MarketID := some 123
    SystemAddress := 99
    StarSystem := "Example System"
    SystemName := none
    StarPos := ⟨1, 2, 3⟩
    BodyID := some 4
    BodyName := some "Example System B 1"
    Latitude := some 10
    Longitude := some 20 }

/-- A journal `Location` message with explicit `(0,0,0)` coordinates for a
system that is not Sol. -/
def locationZeroMsg : LocationMessage :=
  { SystemAddress := some 5
    StarSystem := "Example System"
    StarPos := some ⟨0, 0, 0⟩
    timestamp := "2026-01-01T00:00:00Z" }

/-- The scenario-S2 nav-route hops: both at `(0,0,0)`, the second being Sol. -/
def navRouteHopX : NavRouteHop :=
  { StarSystem := "X", SystemAddress := 42, StarPos := ⟨0, 0, 0⟩, SystemName := none }

/-- Sol's hop of scenario S2. -/
def navRouteHopSol : NavRouteHop :=
  { StarSystem := "Sol", SystemAddress := 10477373803, StarPos := ⟨0, 0, 0⟩, SystemName := none }

/-- A journal `Location` message for a named system with non-trivial
coordinates (grid triple `(0, -1, 0)`). -/
def locationAlphaMsg : LocationMessage :=
  { SystemAddress := some 5
    StarSystem := "Alpha Centauri"
    StarPos := some ⟨3, -1/10, 16/5⟩
    timestamp := "2026-01-01T00:00:00Z" }

/-- A trade row with buy-side stock of exactly 100. -/
def tradeRowGoldBuy : TradeRow :=
  { commodityName := "Gold", marketId := 1, buyPrice := 100, stock := 100 }

/-- A trade row with sell-side demand of 500. -/
def tradeRowGoldSell : TradeRow :=
  { commodityName := "Gold", marketId := 2, sellPrice := 200, demand := 500 }

/-- The exact station row left behind by `approachMsg`: placement and system
fields set, every other column NULL (the structure's `none` defaults). -/
def stationRowAfter : StationRow :=
  { marketId := 123
    stationName := some "New Settlement"
    systemAddress := some 99
    systemName := some "Example System"
    systemX := some 1
    systemY := some 2
    systemZ := some 3
    bodyId := some 4
    bodyName := some "Example System B 1"
    latitude := some 10
    longitude := some 20
    updatedAt := some "2026-01-01T00:00:00.000Z" }

/-- The systems-store invariant of the claim: coordinates differ from
`(0,0,0)` or the name is the designated origin system. -/
def systemRowOk (r : SystemRow) : Prop :=
  ¬(r.systemX = some 0 ∧ r.systemY = some 0 ∧ r.systemZ = some 0) ∨ r.systemName = "Sol"

instance (r : SystemRow) : Decidable (systemRowOk r) := by
  unfold systemRowOk; infer_instance

/-- Schema well-formedness for events handled by the guarded handlers:
nav-route hops and approach-settlement messages define no `SystemName`
field, and journal `Location` events (whose handler has no guard at all)
are excluded. -/
def guardedWf : Event → Prop
  | .discoveryScan _ => True
  | .navRoute route => ∀ hop ∈ route, hop.SystemName = none
  | .approachSettlement m => m.SystemName = none
  | .journalLocation _ => False

/-- A well-formed discovery-scan event used to instantiate the invariant
theorem. -/
def discoveryMsgOk : DiscoveryScanMessage :=
  { SystemAddress := 300, SystemName := "Example System", StarPos := ⟨1, 2, 3⟩ }

/-! ### Claim C1 -/

/-- C1: handling an approach-settlement event with a `MarketID` for an
existing station row does NOT leave the other fields unchanged: the handler
issues `INSERT OR REPLACE` (despite its own comment saying it updates the
existing row), so `primaryEconomy`, `secondaryEconomy` and the service flags
of the pre-existing row are reset to NULL.  Evaluated at the failing input:
station 123 had economies and services set, and after the event the row is
exactly `stationRowAfter`, whose non-placement fields are all `none`. -/
theorem approachSettlement_wipes_station_fields :
  (approachSettlementEvent testEnv approachMsg ⟨[], [stationRowBefore], []⟩).stations
    = [stationRowAfter]
  ∧ stationRowAfter.primaryEconomy = none
  ∧ stationRowAfter.secondaryEconomy = none
  ∧ stationRowAfter.shipyard = none
  ∧ stationRowAfter.refuel = none
  ∧ stationRowAfter.stationType = none
  ∧ stationRowBefore.primaryEconomy = some "Agriculture"
  ∧ stationRowBefore.secondaryEconomy = some "Industrial"
  ∧ stationRowBefore.shipyard = some 1
  ∧ stationRowBefore.refuel = some 1
  ∧ stationRowBefore.stationType = some "CraterPort" := by decide

/-! ### Claim C2 -/

/-- C2 counterexample: the journal `Location` handler has no
zero-coordinate guard, so from an empty store a single Location event with
`StarPos = [0,0,0]` and a non-Sol name produces a row violating the
invariant. -/
theorem journalLocation_writes_zero_coordinate_row :
  ((applyEvents testEnv [.journalLocation locationZeroMsg] emptyDb).systems.map
      (fun r => (r.systemName, r.systemX, r.systemY, r.systemZ)))
    = [("Example System", some 0, some 0, some 0)]
  ∧ ¬ ∀ r ∈ (applyEvents testEnv [.journalLocation locationZeroMsg] emptyDb).systems,
      systemRowOk r := by decide

/-! ### Claim C3 -/

/-- C3: on the S2 route neither hop is inserted — including Sol.  The guard
compares `system.SystemName` (a field navroute hops do not carry, so it is
`undefined` and never equals `'Sol'`) instead of `system.StarSystem`, making
the origin-system exception dead code: every zero-coordinate hop is skipped. -/
theorem navRoute_zero_coordinate_sol_not_inserted :
  navRouteEvent testEnv [navRouteHopX, navRouteHopSol] [] = []
  ∧ ∀ (env : Env) (db : List SystemRow) (hop : NavRouteHop),
      hop.SystemName = none →
      hop.StarPos.x = 0 → hop.StarPos.y = 0 → hop.StarPos.z = 0 →
      navRouteHopStep env db hop = db := by
  refine ⟨by decide, ?_⟩
  intro env db hop hn hx hy hz
  simp [navRouteHopStep, hx, hy, hz, hn]

/-! ### Claim C9 -/

/-- C9 counterexample: a `/health` request made while the write-lock flag is
set still carries no `maintenance` key. -/
theorem health_no_maintenance_while_locked :
  (healthHandler true "2026-01-01T00:00:00.000Z" "1.0.0" 60).maintenance = none := by rfl

/-- C9 (amended): the `/health` body is always exactly
`{status: "healthy", timestamp, version, uptime}`; the `maintenance`
sub-object is never attached, whatever the write-lock flag's value. -/
theorem health_response_never_has_maintenance :
  ∀ (databaseWriteLocked : Bool) (timestamp version : String) (uptime : ℤ),
    healthHandler databaseWriteLocked timestamp version uptime
      = { status := "healthy", timestamp := timestamp, version := version,
          uptime := uptime, maintenance := none } :=
  fun _ _ _ _ => rfl

/-! ### Claim C10 -/

/-- C10 counterexample: neither the `stations` CREATE TABLE statement nor
the migration's expected-column list contains `prohibited` or
`carrierDockingAccess` (both are marked TODO in the source). -/
theorem stations_schema_lacks_prohibited_and_carrier_access :
  "prohibited" ∉ stationsTableColumns
  ∧ "carrierDockingAccess" ∉ stationsTableColumns
  ∧ "prohibited" ∉ migrateSchemaExpectedColumns
  ∧ "carrierDockingAccess" ∉ migrateSchemaExpectedColumns := by decide

/-- C10 (amended): the stations schema consists of exactly the 41 declared
columns, the migration targets the same set, and the two optional text
fields of the claim are absent from both. -/
theorem stations_schema_columns_fixed :
  stationsTableColumns = migrateSchemaExpectedColumns
  ∧ stationsTableColumns.length = 41
  ∧ "prohibited" ∉ stationsTableColumns
  ∧ "carrierDockingAccess" ∉ stationsTableColumns := by decide

/-! ### Claim C7 -/

/-- C7 counterexample: a (buy, sell) pair meeting every condition of the
claim — with buy-side stock exactly 100 and all other conditions satisfied,
hence top-ranked among eligible pairs — does not appear in `hotTrades`: the
query requires `buy.stock > 100`, strictly. -/
theorem hotTrades_excludes_stock_exactly_100 :
  hotTrades [tradeRowGoldBuy, tradeRowGoldSell] = []
  ∧ tradeRowGoldBuy.stock ≥ 100
  ∧ tradeRowGoldSell.demand ≥ 100
  ∧ tradeRowGoldBuy.marketId ≠ tradeRowGoldSell.marketId
  ∧ tradeRowGoldSell.sellPrice > tradeRowGoldBuy.buyPrice
  ∧ 0 < tradeRowGoldBuy.buyPrice ∧ tradeRowGoldBuy.buyPrice < 999999
  ∧ 0 < tradeRowGoldSell.sellPrice ∧ tradeRowGoldSell.sellPrice < 999999 := by decide

/-! ### Claim C2 (amended): the invariant for the guarded handlers -/

lemma mem_insertOrReplaceIntoSystems {db : List SystemRow} {row r : SystemRow}
    (h : r ∈ insertOrReplaceIntoSystems db row) : r ∈ db ∨ r = row := by
  unfold insertOrReplaceIntoSystems at h
  rcases List.mem_append.mp h with h | h
  · exact Or.inl (List.mem_filter.mp h).1
  · exact Or.inr (List.mem_singleton.mp h)

lemma discoveryScanEvent_preserves_ok (env : Env) (m : DiscoveryScanMessage)
    (db : List SystemRow) (hdb : ∀ r ∈ db, systemRowOk r) :
    ∀ r ∈ discoveryScanEvent env m db, systemRowOk r := by
  intro r hr
  unfold discoveryScanEvent at hr
  split at hr
  · exact hdb r hr
  · rename_i hguard
    split at hr
    · exact hdb r hr
    · rcases mem_insertOrReplaceIntoSystems hr with h | rfl
      · exact hdb r h
      · simp only [systemRowOk, Option.some.injEq]
        tauto

lemma navRouteHopStep_preserves_ok (env : Env) (db : List SystemRow)
    (hop : NavRouteHop) (hn : hop.SystemName = none)
    (hdb : ∀ r ∈ db, systemRowOk r) :
    ∀ r ∈ navRouteHopStep env db hop, systemRowOk r := by
  intro r hr
  unfold navRouteHopStep at hr
  split at hr
  · exact hdb r hr
  · rename_i hguard
    split at hr
    · exact hdb r hr
    · rcases mem_insertOrReplaceIntoSystems hr with h | rfl
      · exact hdb r h
      · refine Or.inl ?_
        simp only [Option.some.injEq]
        intro hzero
        exact hguard ⟨hzero.1, hzero.2.1, hzero.2.2, by simp [hn]⟩

lemma navRouteEvent_preserves_ok (env : Env) (route : List NavRouteHop)
    (db : List SystemRow) (hwf : ∀ hop ∈ route, hop.SystemName = none)
    (hdb : ∀ r ∈ db, systemRowOk r) :
    ∀ r ∈ navRouteEvent env route db, systemRowOk r := by
  induction route generalizing db with
  | nil => exact hdb
  | cons hop rest ih =>
      exact ih (navRouteHopStep env db hop)
        (fun h hh => hwf h (List.mem_cons_of_mem _ hh))
        (navRouteHopStep_preserves_ok env db hop (hwf hop (List.mem_cons_self _ _)) hdb)

lemma approachSettlementEvent_systems (env : Env) (m : ApproachSettlementMessage)
    (st : DbState) :
    (approachSettlementEvent env m st).systems =
      if m.StarPos.x = 0 ∧ m.StarPos.y = 0 ∧ m.StarPos.z = 0 ∧ m.SystemName ≠ some "Sol" then
        st.systems
      else if (selectSystemByAddress st.systems m.SystemAddress).isSome then
        st.systems
      else
        insertOrReplaceIntoSystems st.systems {
          systemAddress := m.SystemAddress
          systemName := m.StarSystem
          systemX := some m.StarPos.x
          systemY := some m.StarPos.y
          systemZ := some m.StarPos.z
          systemSector := getSystemSector env (.str m.StarSystem) .undef .undef
          updatedAt := env.now } := by
  unfold approachSettlementEvent
  split
  · rfl
  · rcases m.MarketID with _ | mid
    · rfl
    · dsimp only
      split <;> rfl

lemma approachSettlementEvent_preserves_ok (env : Env) (m : ApproachSettlementMessage)
    (st : DbState) (hn : m.SystemName = none)
    (hdb : ∀ r ∈ st.systems, systemRowOk r) :
    ∀ r ∈ (approachSettlementEvent env m st).systems, systemRowOk r := by
  intro r hr
  rw [approachSettlementEvent_systems] at hr
  split at hr
  · exact hdb r hr
  · rename_i hguard
    split at hr
    · exact hdb r hr
    · rcases mem_insertOrReplaceIntoSystems hr with h | rfl
      · exact hdb r h
      · refine Or.inl ?_
        simp only [Option.some.injEq]
        intro hzero
        exact hguard ⟨hzero.1, hzero.2.1, hzero.2.2, by simp [hn]⟩

lemma applyEvent_preserves_ok (env : Env) (st : DbState) (e : Event)
    (hwf : guardedWf e) (hdb : ∀ r ∈ st.systems, systemRowOk r) :
    ∀ r ∈ (applyEvent env st e).systems, systemRowOk r := by
  cases e with
  | discoveryScan m => exact discoveryScanEvent_preserves_ok env m st.systems hdb
  | navRoute route => exact navRouteEvent_preserves_ok env route st.systems hwf hdb
  | approachSettlement m => exact approachSettlementEvent_preserves_ok env m st hwf hdb
  | journalLocation m => exact hwf.elim

/-- C2 (amended): starting from an empty store, every sequence of calls to
the three guarded handlers (discovery-scan, nav-route, approach-settlement)
on schema-well-formed payloads preserves the invariant: every systems row
has coordinates different from `(0,0,0)` or is named `Sol`.  The journal
`Location` handler is excluded: it performs no zero-coordinate check and can
violate the invariant. -/
theorem systems_store_invariant_for_guarded_handlers
    (env : Env) (events : List Event) (hwf : ∀ e ∈ events, guardedWf e) :
    ∀ r ∈ (applyEvents env events emptyDb).systems, systemRowOk r := by
  suffices h : ∀ (evs : List Event) (st : DbState), (∀ e ∈ evs, guardedWf e) →
      (∀ r ∈ st.systems, systemRowOk r) →
      ∀ r ∈ (applyEvents env evs st).systems, systemRowOk r by
    exact h events emptyDb hwf (by intro r hr; simp [emptyDb] at hr)
  intro evs
  induction evs with
  | nil => exact fun st _ hdb => hdb
  | cons e rest ih =>
      intro st hwf2 hdb
      exact ih (applyEvent env st e)
        (fun e' he' => hwf2 e' (List.mem_cons_of_mem _ he'))
        (applyEvent_preserves_ok env st e (hwf2 e (List.mem_cons_self _ _)) hdb)

/-- Witness for C2 (amended) at a concrete well-formed event sequence. -/
theorem systems_store_invariant_witness :
  (∀ e ∈ [Event.discoveryScan discoveryMsgOk], guardedWf e)
  ∧ ∀ r ∈ (applyEvents testEnv [Event.discoveryScan discoveryMsgOk] emptyDb).systems,
      systemRowOk r := by
  have hwf : ∀ e ∈ [Event.discoveryScan discoveryMsgOk], guardedWf e := by
    intro e he
    rcases List.mem_singleton.mp he with rfl
    trivial
  exact ⟨hwf, systems_store_invariant_for_guarded_handlers testEnv _ hwf⟩

/-! ### Claim C5: dead-letter buffering -/

lemma consumeRun_content (events : List (Bool × String)) :
    ∀ st : IngestState,
      (consumeRun events st).processed ++ (consumeRun events st).buffer
        = st.processed ++ st.buffer ++ events.map Prod.snd := by
  induction events with
  | nil => intro st; simp [consumeRun]
  | cons e rest ih =>
      intro st
      have hstep : consumeRun (e :: rest) st = consumeRun rest (consumeStep e.1 st e.2) := rfl
      rw [hstep, ih]
      unfold consumeStep
      split <;> simp

/-- C5: while the write-lock flag is set each received frame is appended to
the dead-letter buffer and not dispatched; on the first frame that arrives
with the flag clear, the buffered frames are dispatched first, in buffer
order, followed by the new frame; and over any run from the initial state,
the dispatched frames followed by the still-buffered frames are exactly the
arrived frames in arrival order — no frame is lost or reordered. -/
theorem ingest_write_lock_buffering :
  (∀ (st : IngestState) (message : String),
      consumeStep true st message = { st with buffer := st.buffer ++ [message] })
  ∧ (∀ (st : IngestState) (message : String),
      consumeStep false st message
        = { buffer := [], processed := st.processed ++ st.buffer ++ [message] })
  ∧ (∀ events : List (Bool × String),
      (consumeRun events ⟨[], []⟩).processed ++ (consumeRun events ⟨[], []⟩).buffer
        = events.map Prod.snd) := by
  refine ⟨fun st m => rfl, fun st m => rfl, fun events => ?_⟩
  have h := consumeRun_content events ⟨[], []⟩
  simpa using h

/-! ### Claim C8: dedup cache cleanup -/

/-- C8: if the dedup set held at most 50,000 keys before a frame, it holds
at most 50,000 after; and when it is exactly full and a fresh key is
inserted (making the size exceed the cap), the result is precisely the old
set minus its 25,000 oldest entries, with the new key appended — no newer
key is removed. -/
theorem messageCache_cleanup_drops_oldest_half
    (messageCache : List String) (cacheKey : String)
    (hlen : messageCache.length ≤ MESSAGE_CACHE_MAX_SIZE) :
    (addToMessageCache messageCache cacheKey).length ≤ MESSAGE_CACHE_MAX_SIZE
    ∧ (messageCache.length = MESSAGE_CACHE_MAX_SIZE → cacheKey ∉ messageCache →
        addToMessageCache messageCache cacheKey
          = messageCache.drop MESSAGE_CACHE_CLEANUP_SIZE ++ [cacheKey]) := by
  constructor
  · unfold addToMessageCache
    split
    · exact hlen
    · dsimp only
      split
      · rename_i hgt
        simp only [List.length_drop, List.length_append, List.length_singleton]
        unfold MESSAGE_CACHE_MAX_SIZE MESSAGE_CACHE_CLEANUP_SIZE at *
        omega
      · rename_i hle
        simp only [not_lt] at hle
        simpa using hle
  · intro hfull hnot
    unfold addToMessageCache
    rw [if_neg hnot]
    have hgt : (messageCache ++ [cacheKey]).length > MESSAGE_CACHE_MAX_SIZE := by
      simp only [List.length_append, List.length_singleton, hfull]
      omega
    simp only [if_pos hgt]
    exact List.drop_append_of_le_length
      (by rw [hfull]; unfold MESSAGE_CACHE_MAX_SIZE MESSAGE_CACHE_CLEANUP_SIZE; omega)

/-- Witness for C8 at a concrete cache and key. -/
theorem messageCache_cleanup_drops_oldest_half_witness :
  (["k1"] : List String).length ≤ MESSAGE_CACHE_MAX_SIZE
  ∧ ((addToMessageCache ["k1"] "k2").length ≤ MESSAGE_CACHE_MAX_SIZE
     ∧ ((["k1"] : List String).length = MESSAGE_CACHE_MAX_SIZE → "k2" ∉ (["k1"] : List String) →
        addToMessageCache ["k1"] "k2"
          = (["k1"] : List String).drop MESSAGE_CACHE_CLEANUP_SIZE ++ ["k2"])) :=
  ⟨by decide, messageCache_cleanup_drops_oldest_half ["k1"] "k2" (by decide)⟩

/-! ### Claim C7 (amended): hotTrades membership characterization -/

/-- C7 (amended): a (buy, sell) pair appears in `hotTrades` iff both rows
come from the trade store, they satisfy the query's conditions — same
commodity, stock strictly greater than 100, demand strictly greater than
100, distinct markets, `sellPrice > buyPrice`, both prices strictly between
0 and 999999 — and the pair survives the `LIMIT 20` cut of the
descending-profit ordering. -/
theorem hotTrades_pair_characterization (rows : List TradeRow) (p : TradeRow × TradeRow) :
    p ∈ hotTrades rows ↔
      (p.1 ∈ rows ∧ p.2 ∈ rows ∧ hotTradesWhere p.1 p.2)
      ∧ p ∈ ((hotTradesJoin rows).insertionSort fun a b => profit b ≤ profit a).take 20 := by
  constructor
  · intro h
    refine ⟨?_, h⟩
    have hsorted : p ∈ (hotTradesJoin rows).insertionSort (fun a b => profit b ≤ profit a) :=
      List.take_subset _ _ h
    have hjoin : p ∈ hotTradesJoin rows :=
      (List.perm_insertionSort _ _).mem_iff.mp hsorted
    unfold hotTradesJoin at hjoin
    rcases List.mem_flatMap.mp hjoin with ⟨buy, hbuy, hmem⟩
    rcases List.mem_map.mp hmem with ⟨sell, hsell, hps⟩
    rcases List.mem_filter.mp hsell with ⟨hsellrows, hcond⟩
    subst hps
    exact ⟨hbuy, hsellrows, of_decide_eq_true hcond⟩
  · exact fun h => h.2

/-! ### Claim C6: no false negatives for nearby sectors -/

lemma mem_getAllNumbersBetween {lo hi a : ℤ} (h1 : lo ≤ a) (h2 : a ≤ hi) :
    a ∈ getAllNumbersBetween lo hi := by
  unfold getAllNumbersBetween
  have hlt : (a - lo).toNat < (hi - lo + 1).toNat := by omega
  have heq : lo + ((a - lo).toNat : ℤ) = a := by omega
  exact List.mem_map.mpr ⟨(a - lo).toNat, List.mem_range.mpr hlt, heq⟩

/-- C6: for any reference point, any nonnegative radius, and any point whose
Euclidean distance from the reference is at most the radius (stated via
squared distances), the sector of that point is contained in the enumerated
nearby-sector list: the bounding-box enumeration has no false negatives. -/
theorem getNearbySystemSectors_no_false_negatives
    (env : Env) (x y z distance qx qy qz : ℚ)
    (hd : 0 ≤ distance)
    (hq : (qx - x)^2 + (qy - y)^2 + (qz - z)^2 ≤ distance^2) :
    getSystemSector env (.num qx) (.num qy) (.num qz)
      ∈ getNearbySystemSectors env x y z distance := by
  have hG : (0:ℚ) < SYSTEM_GRID_SIZE := by norm_num [SYSTEM_GRID_SIZE]
  have hx2 : (qx - x)^2 ≤ distance^2 := by nlinarith [sq_nonneg (qy - y), sq_nonneg (qz - z)]
  have hy2 : (qy - y)^2 ≤ distance^2 := by nlinarith [sq_nonneg (qx - x), sq_nonneg (qz - z)]
  have hz2 : (qz - z)^2 ≤ distance^2 := by nlinarith [sq_nonneg (qx - x), sq_nonneg (qy - y)]
  have hxlo : x - distance ≤ qx := by nlinarith [sq_nonneg (qx - x + distance)]
  have hxhi : qx ≤ x + distance := by nlinarith [sq_nonneg (qx - x - distance)]
  have hylo : y - distance ≤ qy := by nlinarith [sq_nonneg (qy - y + distance)]
  have hyhi : qy ≤ y + distance := by nlinarith [sq_nonneg (qy - y - distance)]
  have hzlo : z - distance ≤ qz := by nlinarith [sq_nonneg (qz - z + distance)]
  have hzhi : qz ≤ z + distance := by nlinarith [sq_nonneg (qz - z - distance)]
  have hmx : ⌊qx / SYSTEM_GRID_SIZE⌋
      ∈ getAllNumbersBetween ⌊(x - distance) / SYSTEM_GRID_SIZE⌋ ⌈(x + distance) / SYSTEM_GRID_SIZE⌉ :=
    mem_getAllNumbersBetween
      (Int.floor_le_floor ((div_le_div_iff_of_pos_right hG).mpr hxlo))
      (le_trans (Int.floor_le_floor ((div_le_div_iff_of_pos_right hG).mpr hxhi)) (Int.floor_le_ceil _))
  have hmy : ⌊qy / SYSTEM_GRID_SIZE⌋
      ∈ getAllNumbersBetween ⌊(y - distance) / SYSTEM_GRID_SIZE⌋ ⌈(y + distance) / SYSTEM_GRID_SIZE⌉ :=
    mem_getAllNumbersBetween
      (Int.floor_le_floor ((div_le_div_iff_of_pos_right hG).mpr hylo))
      (le_trans (Int.floor_le_floor ((div_le_div_iff_of_pos_right hG).mpr hyhi)) (Int.floor_le_ceil _))
  have hmz : ⌊qz / SYSTEM_GRID_SIZE⌋
      ∈ getAllNumbersBetween ⌊(z - distance) / SYSTEM_GRID_SIZE⌋ ⌈(z + distance) / SYSTEM_GRID_SIZE⌉ :=
    mem_getAllNumbersBetween
      (Int.floor_le_floor ((div_le_div_iff_of_pos_right hG).mpr hzlo))
      (le_trans (Int.floor_le_floor ((div_le_div_iff_of_pos_right hG).mpr hzhi)) (Int.floor_le_ceil _))
  refine List.mem_flatMap.mpr ⟨⌊qx / SYSTEM_GRID_SIZE⌋, hmx, ?_⟩
  refine List.mem_flatMap.mpr ⟨⌊qy / SYSTEM_GRID_SIZE⌋, hmy, ?_⟩
  exact List.mem_map.mpr ⟨⌊qz / SYSTEM_GRID_SIZE⌋, hmz, rfl⟩

/-- Witness for C6 at the origin with radius 0. -/
theorem getNearbySystemSectors_no_false_negatives_witness :
  (0:ℚ) ≤ 0
  ∧ ((0:ℚ) - 0)^2 + ((0:ℚ) - 0)^2 + ((0:ℚ) - 0)^2 ≤ ((0:ℚ))^2
  ∧ getSystemSector testEnv (.num 0) (.num 0) (.num 0)
      ∈ getNearbySystemSectors testEnv 0 0 0 0 :=
  ⟨le_refl 0, by norm_num,
    getNearbySystemSectors_no_false_negatives testEnv 0 0 0 0 0 0 0 (le_refl 0) (by norm_num)⟩

/-! ### Claim C4: stored sector vs coordinate sector -/

/-- C4: the handlers call `getSystemSector` with the system name as the only
argument, so the digest input is the constant `"NaN, NaN, NaN"` rather than
the grid triple of the row's coordinates.  At the failing input (system
`Alpha Centauri` at `(3, -0.1, 3.2)`, grid triple `(0, -1, 0)`), the stored
`systemSector` is the digest of `"NaN, NaN, NaN"` and differs from the
digest of the coordinate triple whenever the digest is injective. -/
theorem sector_hash_of_name_mismatch (env : Env) (hinj : Function.Injective env.hash) :
    ((locationEvent env locationAlphaMsg []).map fun r => r.systemSector)
        = [env.hash "NaN, NaN, NaN"]
    ∧ getSystemSector env (.num 3) (.num (-1/10)) (.num (16/5)) = env.hash "0, -1, 0"
    ∧ ((locationEvent env locationAlphaMsg []).map fun r => r.systemSector)
        ≠ [getSystemSector env (.num 3) (.num (-1/10)) (.num (16/5))] := by
  have hsec : getSystemSector env (.str "Alpha Centauri") .undef .undef
      = env.hash "NaN, NaN, NaN" := by
    unfold getSystemSector
    exact congrArg env.hash (by decide)
  have h1 : ((locationEvent env locationAlphaMsg []).map fun r => r.systemSector)
      = [getSystemSector env (.str "Alpha Centauri") .undef .undef] := rfl
  have c1 : gridComponent (.num 3) = "0" := by
    show toString (⌊(3:ℚ) / SYSTEM_GRID_SIZE⌋ : ℤ) = "0"
    norm_num [SYSTEM_GRID_SIZE]
    decide
  have c2 : gridComponent (.num (-1/10)) = "-1" := by
    show toString (⌊((-1:ℚ)/10) / SYSTEM_GRID_SIZE⌋ : ℤ) = "-1"
    norm_num [SYSTEM_GRID_SIZE]
    decide
  have c3 : gridComponent (.num (16/5)) = "0" := by
    show toString (⌊((16:ℚ)/5) / SYSTEM_GRID_SIZE⌋ : ℤ) = "0"
    norm_num [SYSTEM_GRID_SIZE]
    decide
  have h2 : getSystemSector env (.num 3) (.num (-1/10)) (.num (16/5)) = env.hash "0, -1, 0" := by
    unfold getSystemSector
    refine congrArg env.hash ?_
    rw [c1, c2, c3]
    decide
  refine ⟨h1.trans (by rw [hsec]), h2, ?_⟩
  rw [h1, hsec, h2]
  intro heq
  simp only [List.cons.injEq, and_true] at heq
  exact absurd (hinj heq) (by decide)

/-- Witness for C4 with the identity digest (which is injective). -/
theorem sector_hash_of_name_mismatch_witness :
  Function.Injective testEnv.hash
  ∧ (((locationEvent testEnv locationAlphaMsg []).map fun r => r.systemSector)
        = [testEnv.hash "NaN, NaN, NaN"]
     ∧ getSystemSector testEnv (.num 3) (.num (-1/10)) (.num (16/5)) = testEnv.hash "0, -1, 0"
     ∧ ((locationEvent testEnv locationAlphaMsg []).map fun r => r.systemSector)
        ≠ [getSystemSector testEnv (.num 3) (.num (-1/10)) (.num (16/5))]) :=
  ⟨fun _ _ h => h, sector_hash_of_name_mismatch testEnv (fun _ _ h => h)⟩
